import Mathlib

/-!
Shallow embedding of `scripts/generate_waf_assessment_excel.py`.

The script reads a markdown architecture document and a CSV of support cases,
and builds a multi-sheet xlsx workbook via openpyxl.  We model the workbook
content (sheet names, cell values, structured tables, conditional-formatting
rules, auto filter) as plain Lean data, the CSV records as association lists
(the output of `csv.DictReader` on a well-formed file), the ambient clock
(`dt.datetime.now`) as an explicit `now` parameter, and the filesystem
side effects of `build_workbook` as an explicit effect trace acting on a
small filesystem state.
-/

set_option autoImplicit false

/-- A value written into a spreadsheet cell: the script writes strings and
integer scores. -/
inductive CellVal where
  | str (s : String)
  | int (n : Int)
deriving Repr, DecidableEq

/-- openpyxl `get_column_letter`, e.g. 1 ↦ "A", 26 ↦ "Z", 27 ↦ "AA".
First argument is fuel (the index itself suffices). -/
def colLetterAux : Nat → Nat → String
  | 0, _ => ""
  | _ + 1, 0 => ""
  | fuel + 1, idx =>
    let r := idx % 26
    if r = 0 then colLetterAux fuel (idx / 26 - 1) ++ "Z"
    else colLetterAux fuel (idx / 26) ++ String.singleton (Char.ofNat (r + 64))

/-- openpyxl `get_column_letter` (column index to letters). -/
def get_column_letter (idx : Nat) : String := colLetterAux idx idx

/-- A conditional-formatting rule as added by `CellIsRule(...)` on a range. -/
structure CFRule where
  range : String
  operator : String
  formula : List String
  fgColor : String
deriving Repr, DecidableEq

/-- A structured table as produced by `_apply_table` (displayName, region,
derived `ref` string, style name). -/
structure XTable where
  displayName : String
  startRow : Nat
  startCol : Nat
  endRow : Nat
  endCol : Nat
  ref : String
  styleName : String
deriving Repr, DecidableEq

/-- `_apply_table(ws, table_name, start_row, start_col, end_row, end_col)`:
builds the `ref` f-string and attaches the `TableStyleMedium9` style. -/
def _apply_table (table_name : String) (start_row start_col end_row end_col : Nat) : XTable :=
  { displayName := table_name
    startRow := start_row
    startCol := start_col
    endRow := end_row
    endCol := end_col
    ref := get_column_letter start_col ++ toString start_row ++ ":" ++
      get_column_letter end_col ++ toString end_row
    styleName := "TableStyleMedium9" }

/-- A worksheet: its title, written cells as `(row, col, value)` in write
order, structured tables, conditional-formatting rules, auto-filter ref and
freeze panes. -/
structure Sheet where
  name : String
  cells : List (Nat × Nat × CellVal)
  tables : List XTable
  condFormats : List CFRule
  autoFilterRef : Option String
  freezePanes : Option String
deriving Repr, DecidableEq

/-- Document properties: the script sets `wb.properties.title` and
`wb.properties.created = dt.datetime.now(dt.timezone.utc)` (modelled by the
ambient-clock parameter `now`). -/
structure DocProperties where
  title : String
  created : Nat
deriving Repr, DecidableEq

/-- A workbook: document properties and sheets in creation order. -/
structure Workbook where
  properties : DocProperties
  sheets : List Sheet
deriving Repr, DecidableEq

/-- Cells written by one `ws.append(row)` call landing on row `r`:
values go to columns 1, 2, …. -/
def rowCells (r : Nat) (row : List CellVal) : List (Nat × Nat × CellVal) :=
  row.enum.map (fun p => (r, p.1 + 1, p.2))

/-- Cells written by consecutive `ws.append` calls starting at row `r`. -/
def appendRows : Nat → List (List CellVal) → List (Nat × Nat × CellVal)
  | _, [] => []
  | r, row :: rest => rowCells r row ++ appendRows (r + 1) rest

/-- A CSV record as produced by `csv.DictReader` on a well-formed file: an
ordered association list of field name to field value. -/
abbrev Record := List (String × String)

/-- The record's keys in order (`list(d.keys())`). -/
def recKeys (r : Record) : List String := r.map Prod.fst

/-- Python `d.get(k, default)` on an association list (dict keys are unique,
so first match is the value). -/
def recGet (r : Record) (k : String) (default : String) : String :=
  ((r.find? (fun p => p.1 == k)).map Prod.snd).getD default

/-- A date, with `isoformat` producing `YYYY-MM-DD`. -/
structure Date where
  year : Nat
  month : Nat
  day : Nat
deriving Repr, DecidableEq

/-- Zero-pad a number to two digits. -/
def pad2 (n : Nat) : String :=
  if n < 10 then "0" ++ toString n else toString n

/-- Zero-pad a number to four digits. -/
def pad4 (n : Nat) : String :=
  if n < 10 then "000" ++ toString n
  else if n < 100 then "00" ++ toString n
  else if n < 1000 then "0" ++ toString n
  else toString n

/-- Python `date.isoformat()`. -/
def Date.isoformat (d : Date) : String :=
  pad4 d.year ++ "-" ++ pad2 d.month ++ "-" ++ pad2 d.day

/-- The Overview sheet: title, date, summary, and the full architecture
markdown in cell A7 (row 7, column 1). -/
def overviewSheet (architecture_md : String) (assessment_date : Date) : Sheet :=
  { name := "Overview"
    cells := [
      (1, 1, .str "Well-Architected Framework (WAF) Assessment"),
      (3, 1, .str "Assessment Date"),
      (3, 2, .str assessment_date.isoformat),
      (4, 1, .str "Architecture Summary"),
      (4, 2, .str "Hub-and-spoke AKS with Application Gateway → ILB → Traefik, Private Link, Azure Firewall, Bastion, and Azure Monitor"),
      (6, 1, .str "Source Architecture Document (excerpt)"),
      (7, 1, .str architecture_md)]
    tables := []
    condFormats := []
    autoFilterRef := none
    freezePanes := some "A6" }

/-- The literal `scores` list: (pillar, score, status). -/
def scores : List (String × Int × String) := [
  ("Reliability", 68, "Fair"),
  ("Security", 74, "Good"),
  ("Cost Optimization", 64, "Fair"),
  ("Operational Excellence", 66, "Fair"),
  ("Performance Efficiency", 78, "Good"),
  ("Overall", 70, "Good baseline, needs hardening")]

/-- The Scores sheet: header plus the literal score rows, three
conditional-formatting bands on the score column, and `ScoresTable`. -/
def scoresSheet : Sheet :=
  { name := "Scores"
    cells := appendRows 1
      ([.str "Pillar", .str "Score", .str "Status"] ::
        scores.map (fun row => [.str row.1, .int row.2.1, .str row.2.2]))
    tables := [_apply_table "ScoresTable" 1 1 (1 + scores.length) 3]
    condFormats := [
      { range := "B2:B" ++ toString (1 + scores.length)
        operator := "lessThan", formula := ["60"], fgColor := "F8D7DA" },
      { range := "B2:B" ++ toString (1 + scores.length)
        operator := "between", formula := ["60", "79"], fgColor := "FFF3CD" },
      { range := "B2:B" ++ toString (1 + scores.length)
        operator := "greaterThanOrEqual", formula := ["80"], fgColor := "D1E7DD" }]
    autoFilterRef := none
    freezePanes := some "A2" }

/-- One entry of the literal `recommendations` list. -/
structure Recommendation where
  id : String
  title : String
  pillars : String
  why : String
  risk : String
  priority : String
  effort : String
  cases : String
  docs : String
deriving Repr, DecidableEq

/-- The Recommendations header row literals. -/
def rec_headers : List String := [
  "ID",
  "Recommendation",
  "Primary Pillar(s)",
  "Why / Evidence",
  "Risk if not addressed",
  "Priority",
  "Estimated Effort",
  "Related Support Cases",
  "Key Docs"]

/-- The literal `recommendations` list embedded in the code. -/
def recommendations : List Recommendation := [
  { id := "REC-01"
    title := "Standardize ingress routing and health probes end-to-end (App Gateway → ILB → Traefik)"
    pillars := "Reliability, Operational Excellence"
    why := "Repeated ingress/probe/routing misconfig issues leading to 502s and backend unhealthy signals."
    risk := "Intermittent or complete service outage; slow triage due to multi-layer routing."
    priority := "High"
    effort := "1–3 days"
    cases := "120012346; 120012353"
    docs := "https://learn.microsoft.com/azure/application-gateway/application-gateway-probe-overview | https://learn.microsoft.com/azure/architecture/reference-architectures/containers/aks-baseline" },
  { id := "REC-02"
    title := "Automate TLS certificate lifecycle for Application Gateway using Key Vault"
    pillars := "Reliability, Security"
    why := "Certificate expiry caused TLS handshake failures and outage of public endpoints."
    risk := "Public endpoint downtime and incident escalation during renewal windows."
    priority := "Critical"
    effort := "0.5–2 days"
    cases := "120012347"
    docs := "https://learn.microsoft.com/azure/key-vault/certificates/about-certificates | https://learn.microsoft.com/azure/application-gateway/key-vault-certs" },
  { id := "REC-03"
    title := "Harden Private Link + Private DNS zone management (Key Vault, ACR)"
    pillars := "Security, Reliability"
    why := "Private Endpoint access failures caused secret retrieval and DNS resolution issues."
    risk := "Workloads unable to pull images or read secrets; cascading failures."
    priority := "High"
    effort := "1–2 days"
    cases := "120012348"
    docs := "https://learn.microsoft.com/azure/private-link/private-endpoint-dns | https://learn.microsoft.com/azure/key-vault/general/private-link-service" },
  { id := "REC-04"
    title := "Make monitoring egress explicit and continuously validated through Azure Firewall"
    pillars := "Operational Excellence, Reliability"
    why := "Firewall misconfig blocked Azure Monitor/Prometheus endpoints; telemetry gaps."
    risk := "Reduced observability during incidents; delayed detection of failures."
    priority := "High"
    effort := "1–3 days"
    cases := "120012350; 120012354"
    docs := "https://learn.microsoft.com/azure/firewall/overview | https://learn.microsoft.com/azure/azure-monitor/containers/kubernetes-monitoring-enable" },
  { id := "REC-05"
    title := "Implement AKS subnet/IP capacity planning and autoscaler guardrails"
    pillars := "Reliability, Performance Efficiency"
    why := "Autoscaling failures due to subnet IP range constraints."
    risk := "Scale-out fails; pods stuck Pending; degraded performance/availability."
    priority := "High"
    effort := "0.5–2 days"
    cases := "120012351"
    docs := "https://learn.microsoft.com/azure/aks/cluster-autoscaler | https://learn.microsoft.com/azure/aks/concepts-network" },
  { id := "REC-06"
    title := "Reduce configuration drift via IaC + policy guardrails + runbooks"
    pillars := "Operational Excellence, Security"
    why := "Pattern of incidents rooted in configuration mistakes (Bastion association, probes, routing, rules)."
    risk := "Recurring outages; inconsistent environments; slower recovery."
    priority := "High"
    effort := "1–3 weeks (incremental)"
    cases := "120012352; 120012346; 120012353; 120012350"
    docs := "https://learn.microsoft.com/azure/governance/policy/overview | https://learn.microsoft.com/azure/well-architected/" }]

/-- The row appended for one recommendation. -/
def recRow (r : Recommendation) : List CellVal :=
  [.str r.id, .str r.title, .str r.pillars, .str r.why, .str r.risk,
    .str r.priority, .str r.effort, .str r.cases, .str r.docs]

/-- The Recommendations sheet: header, one row per recommendation, and
`RecommendationsTable`. -/
def recommendationsSheet : Sheet :=
  { name := "Recommendations"
    cells := appendRows 1 (rec_headers.map .str :: recommendations.map recRow)
    tables := [_apply_table "RecommendationsTable" 1 1
      (1 + recommendations.length) rec_headers.length]
    condFormats := []
    autoFilterRef := none
    freezePanes := some "A2" }

/-- The literal `roadmap` list: (horizon, focus, actions). -/
def roadmap : List (String × String × String) := [
  ("Next 7 days",
    "Stability quick wins",
    "Automate cert renewal + alerts (REC-02); standardize probes/routing (REC-01); validate monitoring egress (REC-04)"),
  ("Next 30 days",
    "Platform hardening",
    "Automate Private DNS/Private Link zone linking (REC-03); add subnet/IP guardrails and alerts (REC-05); add telemetry-drop alerting (REC-04)"),
  ("Next 90 days",
    "Operational maturity",
    "Expand IaC coverage and policy guardrails; publish runbooks and do game-day drills (REC-06)")]

/-- The Roadmap sheet: header, the literal roadmap rows, `RoadmapTable`. -/
def roadmapSheet : Sheet :=
  { name := "Roadmap"
    cells := appendRows 1
      ([.str "Horizon", .str "Focus", .str "Actions"] ::
        roadmap.map (fun r => [.str r.1, .str r.2.1, .str r.2.2]))
    tables := [_apply_table "RoadmapTable" 1 1 (1 + roadmap.length) 3]
    condFormats := []
    autoFilterRef := none
    freezePanes := some "A2" }

/-- `ws.dimensions`: the bounding box of the written cells ("A1:A1" for an
empty sheet, matching openpyxl's `calculate_dimension` fallback). -/
def dimensionsRef (cells : List (Nat × Nat × CellVal)) : String :=
  match cells with
  | [] => "A1:A1"
  | c :: rest =>
    let box := rest.foldl
      (fun (a : Nat × Nat × Nat × Nat) d =>
        (min a.1 d.1, min a.2.1 d.2.1, max a.2.2.1 d.1, max a.2.2.2 d.2.1))
      (c.1, c.2.1, c.1, c.2.1)
    get_column_letter box.2.1 ++ toString box.1 ++ ":" ++
      get_column_letter box.2.2.2 ++ toString box.2.2.1

/-- The SupportCases sheet.  When the record list is non-empty: header row
from the first record's keys, one row per record via `item.get(h, "")`,
`SupportCasesTable`, and the auto filter set to the sheet dimensions.  When
it is empty the `if support_cases:` block is skipped entirely. -/
def supportCasesSheet (support_cases : List Record) : Sheet :=
  match support_cases with
  | [] =>
    { name := "SupportCases"
      cells := []
      tables := []
      condFormats := []
      autoFilterRef := none
      freezePanes := some "A2" }
  | first :: _ =>
    let headers := recKeys first
    let cells := appendRows 1
      (headers.map .str ::
        support_cases.map (fun item => headers.map (fun h => .str (recGet item h ""))))
    { name := "SupportCases"
      cells := cells
      tables := [_apply_table "SupportCasesTable" 1 1
        (1 + support_cases.length) headers.length]
      condFormats := []
      autoFilterRef := some (dimensionsRef cells)
      freezePanes := some "A2" }

/-- A filesystem path as a list of components. -/
abbrev FPath := List String

/-- `path.parent`. -/
def FPath.parent (p : FPath) : FPath := List.dropLast p

/-- `build_workbook`: reads have already produced `architecture_md` and
`support_cases`; `now` is the ambient UTC clock read by
`dt.datetime.now(dt.timezone.utc)`.  Returns the workbook content and the
returned path (the function returns `output_xlsx_path`). -/
def build_workbook (architecture_md : String) (support_cases : List Record)
    (output_xlsx_path : FPath) (assessment_date : Date) (now : Nat) :
    Workbook × FPath :=
  ({ properties := { title := "Azure WAF Assessment", created := now }
     sheets := [
       overviewSheet architecture_md assessment_date,
       scoresSheet,
       recommendationsSheet,
       roadmapSheet,
       supportCasesSheet support_cases] },
   output_xlsx_path)

/-- Look a sheet up by title. -/
def sheetByName (wb : Workbook) (nm : String) : Option Sheet :=
  wb.sheets.find? (fun s => s.name == nm)

/-- C1: For every markdown input and CSV record list, `build_workbook` produces
exactly the sheets Overview, Scores, Recommendations, Roadmap and
SupportCases, in that order. -/
theorem build_workbook_sheet_names (architecture_md : String)
    (support_cases : List Record) (out : FPath) (d : Date) (now : Nat) :
    ((build_workbook architecture_md support_cases out d now).1.sheets.map Sheet.name) =
      ["Overview", "Scores", "Recommendations", "Roadmap", "SupportCases"] := by
  cases support_cases <;> rfl

/-- The value of the cell at (row, col) of a sheet: the last write wins
(openpyxl assignment semantics). -/
def cellAt (s : Sheet) (r c : Nat) : Option CellVal :=
  (s.cells.reverse.find? (fun x => x.1 == r && x.2.1 == c)).map (fun x => x.2.2)

/-- The values written on row `r` of a sheet, in column order for sheets
built by consecutive `ws.append` calls (each append writes columns 1, 2, …
in order). -/
def sheetRow (s : Sheet) (r : Nat) : List CellVal :=
  (s.cells.filter (fun x => x.1 == r)).map (fun x => x.2.2)

/-- C5: For every markdown input, the entire text is written into the single
Overview cell A7 (row 7, column 1), while cell A6 labels it an excerpt. -/
theorem overview_cell_A7_is_full_document (architecture_md : String)
    (support_cases : List Record) (out : FPath) (d : Date) (now : Nat) :
    ((sheetByName (build_workbook architecture_md support_cases out d now).1 "Overview").bind
        (fun s => cellAt s 7 1)) = some (.str architecture_md) ∧
      ((sheetByName (build_workbook architecture_md support_cases out d now).1 "Overview").bind
        (fun s => cellAt s 6 1)) =
        some (.str "Source Architecture Document (excerpt)") := by
  constructor <;> rfl

/-- C3: The Scores, Recommendations and Roadmap sheets are identical across
any two runs of `build_workbook`: their contents (cell values included)
depend on neither input file, nor on the date, clock or output path. -/
theorem static_sheets_independent_of_inputs
    (md1 md2 : String) (r1 r2 : List Record) (o1 o2 : FPath)
    (d1 d2 : Date) (n1 n2 : Nat) :
    sheetByName (build_workbook md1 r1 o1 d1 n1).1 "Scores" =
        sheetByName (build_workbook md2 r2 o2 d2 n2).1 "Scores" ∧
      sheetByName (build_workbook md1 r1 o1 d1 n1).1 "Recommendations" =
        sheetByName (build_workbook md2 r2 o2 d2 n2).1 "Recommendations" ∧
      sheetByName (build_workbook md1 r1 o1 d1 n1).1 "Roadmap" =
        sheetByName (build_workbook md2 r2 o2 d2 n2).1 "Roadmap" := by
  refine ⟨?_, ?_, ?_⟩ <;> rfl

/-- A filesystem side effect of the script. -/
inductive FSEffect where
  | readFile (p : FPath)
  | mkdirParents (p : FPath)
  | writeFile (p : FPath)
deriving Repr, DecidableEq

/-- The ordered trace of filesystem operations `build_workbook` performs:
read both inputs, `output_xlsx_path.parent.mkdir(parents=True, exist_ok=True)`,
then `wb.save(output_xlsx_path)`. -/
def build_workbook_effects (architecture_md_path support_cases_csv_path
    output_xlsx_path : FPath) : List FSEffect :=
  [.readFile architecture_md_path,
   .readFile support_cases_csv_path,
   .mkdirParents (FPath.parent output_xlsx_path),
   .writeFile output_xlsx_path]

/-- All nonempty ancestor prefixes of a path, the path itself included:
what `mkdir(parents=True)` may create. -/
def ancestors (p : FPath) : List FPath :=
  (List.range p.length).map (fun i => p.take (i + 1))

/-- A filesystem state: existing directories and existing files. -/
structure FS where
  dirs : List FPath
  files : List FPath
deriving Repr, DecidableEq

/-- One effect acting on the filesystem state.  `mkdirParents` creates every
missing ancestor (exist_ok), `writeFile` creates the file if missing, reads
change nothing. -/
def applyEffect (fs : FS) : FSEffect → FS
  | .readFile _ => fs
  | .mkdirParents p =>
    { fs with dirs := fs.dirs ++ (ancestors p).filter (fun q => ¬ q ∈ fs.dirs) }
  | .writeFile p =>
    { fs with files := if p ∈ fs.files then fs.files else fs.files ++ [p] }

/-- Run an effect trace on a filesystem state. -/
def fsRun (fs : FS) : List FSEffect → FS
  | [] => fs
  | e :: es => fsRun (applyEffect fs e) es

/-- The paths a trace modifies starting from `fs`: directories that newly
exist afterwards, plus every file written. -/
def writtenFiles (trace : List FSEffect) : List FPath :=
  trace.filterMap (fun e => match e with | .writeFile p => some p | _ => none)

/-- The paths read by a trace. -/
def readPaths (trace : List FSEffect) : List FPath :=
  trace.filterMap (fun e => match e with | .readFile p => some p | _ => none)

/-- Directories that exist after the trace but not before, plus all files
written: everything the trace modifies. -/
def modifiedPaths (fs : FS) (trace : List FSEffect) : List FPath :=
  (fsRun fs trace).dirs.filter (fun d => ¬ d ∈ fs.dirs) ++ writtenFiles trace

/-- C8 counterexample: starting from a filesystem that has directory
`["tmp"]` only, running `build_workbook`'s effect trace with output path
`["tmp", "sub", "waf.xlsx"]` modifies the directory `["tmp", "sub"]`, a path
different from the output file — so the claim that nothing but the output
file is modified is false. -/
theorem build_workbook_modifies_more_than_output :
    ¬ (∀ p ∈ modifiedPaths ⟨[["tmp"]], [["tmp", "arch.md"], ["tmp", "cases.csv"]]⟩
        (build_workbook_effects ["tmp", "arch.md"] ["tmp", "cases.csv"]
          ["tmp", "sub", "waf.xlsx"]),
      p = ["tmp", "sub", "waf.xlsx"]) := by
  decide

/-- C8 amended: besides reading exactly the two input files, the effect
trace of `build_workbook` modifies nothing except the output file and,
possibly, newly created ancestor directories of the output file's parent;
the file written is exactly the output path, and `build_workbook` returns
that same path. -/
theorem build_workbook_effects_frame (fs : FS) (a c o : FPath)
    (md : String) (recs : List Record) (d : Date) (now : Nat) :
    (∀ p ∈ modifiedPaths fs (build_workbook_effects a c o),
        p = o ∨ p ∈ ancestors (FPath.parent o)) ∧
      readPaths (build_workbook_effects a c o) = [a, c] ∧
      writtenFiles (build_workbook_effects a c o) = [o] ∧
      (build_workbook md recs o d now).2 = o := by
  refine ⟨?_, rfl, rfl, rfl⟩
  intro p hp
  simp only [modifiedPaths, build_workbook_effects, writtenFiles, fsRun, applyEffect,
    List.filterMap, List.mem_append] at hp
  rcases hp with hp | hp
  · right
    have hsub : p ∈ fs.dirs ++ (ancestors (FPath.parent o)).filter (fun q => ¬ q ∈ fs.dirs) := by
      simpa using (List.mem_of_mem_filter hp)
    have hnot : ¬ p ∈ fs.dirs := by
      have := List.of_mem_filter hp
      simpa using this
    rcases List.mem_append.mp hsub with h | h
    · exact absurd h hnot
    · exact List.mem_of_mem_filter h
  · left
    simpa using hp

/-- C8 amended, witnessed at a concrete filesystem, inputs and output path:
the one modified directory is an ancestor of the output file's parent, the
reads are the two inputs, the single write is the output file, and the
output path is returned. -/
theorem build_workbook_effects_frame_witness :
    ((["tmp", "out"] : FPath) = ["tmp", "out", "r.xlsx"] ∨
        (["tmp", "out"] : FPath) ∈ ancestors (FPath.parent ["tmp", "out", "r.xlsx"])) ∧
      readPaths (build_workbook_effects ["tmp", "a.md"] ["tmp", "c.csv"]
          ["tmp", "out", "r.xlsx"]) = [["tmp", "a.md"], ["tmp", "c.csv"]] ∧
      writtenFiles (build_workbook_effects ["tmp", "a.md"] ["tmp", "c.csv"]
          ["tmp", "out", "r.xlsx"]) = [["tmp", "out", "r.xlsx"]] ∧
      (build_workbook "# doc" [] ["tmp", "out", "r.xlsx"] ⟨2026, 10, 12⟩ 0).2 =
        ["tmp", "out", "r.xlsx"] :=
  ⟨(build_workbook_effects_frame ⟨[["tmp"]], []⟩ ["tmp", "a.md"] ["tmp", "c.csv"]
      ["tmp", "out", "r.xlsx"] "# doc" [] ⟨2026, 10, 12⟩ 0).1
      ["tmp", "out"] (by decide),
    (build_workbook_effects_frame ⟨[["tmp"]], []⟩ ["tmp", "a.md"] ["tmp", "c.csv"]
      ["tmp", "out", "r.xlsx"] "# doc" [] ⟨2026, 10, 12⟩ 0).2⟩

/-- C7 counterexample: with identical inputs, date and output path, two runs
of `build_workbook` at different clock readings produce different workbooks —
the `created` document property is the current time, so content including
document properties is not identical across runs. -/
theorem build_workbook_not_clock_independent :
    ¬ (build_workbook "# doc" [] ["out.xlsx"] ⟨2026, 10, 12⟩ 0 =
        build_workbook "# doc" [] ["out.xlsx"] ⟨2026, 10, 12⟩ 1) := by
  intro h
  have hc := congrArg (fun q => q.1.properties.created) h
  simp [build_workbook] at hc

/-- C7 amended: for fixed inputs, date and output path, two runs of
`build_workbook` agree on everything except the `created` document property:
all sheets, the document title, and the returned path are identical. -/
theorem build_workbook_deterministic_except_created
    (md : String) (recs : List Record) (o : FPath) (d : Date) (n1 n2 : Nat) :
    (build_workbook md recs o d n1).1.sheets = (build_workbook md recs o d n2).1.sheets ∧
      (build_workbook md recs o d n1).1.properties.title =
        (build_workbook md recs o d n2).1.properties.title ∧
      (build_workbook md recs o d n1).2 = (build_workbook md recs o d n2).2 := by
  exact ⟨rfl, rfl, rfl⟩

/-- C9: With an empty CSV record list, the SupportCases sheet still exists
but holds no cells, no table and no auto filter, and the save of the
workbook still happens (the write effect is in the trace). -/
theorem empty_csv_support_cases_sheet (md : String) (out : FPath) (d : Date)
    (now : Nat) (a c o : FPath) :
    sheetByName (build_workbook md [] out d now).1 "SupportCases" =
        some { name := "SupportCases", cells := [], tables := [],
               condFormats := [], autoFilterRef := none,
               freezePanes := some "A2" } ∧
      FSEffect.writeFile o ∈ build_workbook_effects a c o := by
  constructor
  · rfl
  · simp [build_workbook_effects]

/-- Join path components the way the script's f-string messages render a
path. -/
def pathStr (p : FPath) : String := String.intercalate "/" p

/-- `ROOT / ".github" / "skills" / "waf-assessment" / "mid" /
"architecture_document.md"`. -/
def architecture_md_path (root : FPath) : FPath :=
  root ++ [".github", "skills", "waf-assessment", "mid", "architecture_document.md"]

/-- `ROOT / ".github" / "skills" / "waf-assessment" / "mid" /
"azure_support_cases.csv"`. -/
def support_cases_csv_path (root : FPath) : FPath :=
  root ++ [".github", "skills", "waf-assessment", "mid", "azure_support_cases.csv"]

/-- `ROOT / ".github" / "skills" / "waf-assessment" / "mid" /
"waf_assessment_results.xlsx"`. -/
def output_xlsx_path (root : FPath) : FPath :=
  root ++ [".github", "skills", "waf-assessment", "mid", "waf_assessment_results.xlsx"]

/-- The filesystem as `main` observes it: which paths exist and what the two
readers (`_read_text`, `_read_support_cases`) return for a path. -/
structure ScriptFS where
  pathExists : FPath → Bool
  readText : FPath → String
  readCases : FPath → List Record

/-- The outcome of `main`: either a raised `FileNotFoundError` with its
message, or the saved workbook and the printed output path. -/
inductive MainResult where
  | fileNotFound (msg : String)
  | ok (out : FPath) (wb : Workbook)
deriving Repr

/-- `main` of the script (`script_main` here since `main` is reserved):
two existence checks, then `build_workbook` on the two files'
contents with today's date, no other validation. -/
def script_main (fs : ScriptFS) (root : FPath) (today : Date) (now : Nat) : MainResult :=
  let amp := architecture_md_path root
  let scp := support_cases_csv_path root
  let oxp := output_xlsx_path root
  if fs.pathExists amp = false then
    .fileNotFound ("Missing architecture doc: " ++ pathStr amp)
  else if fs.pathExists scp = false then
    .fileNotFound ("Missing support cases CSV: " ++ pathStr scp)
  else
    let res := build_workbook (fs.readText amp) (fs.readCases scp) oxp today now
    .ok res.2 res.1

/-- C4: `main` raises `FileNotFoundError` exactly when the architecture
markdown or the support-cases CSV does not exist; when both exist it
unconditionally builds and saves the workbook from the two files'
contents — no other validation or recovery. -/
theorem main_two_existence_checks (fs : ScriptFS) (root : FPath)
    (today : Date) (now : Nat) :
    ((∃ msg, script_main fs root today now = .fileNotFound msg) ↔
        (fs.pathExists (architecture_md_path root) = false ∨
          fs.pathExists (support_cases_csv_path root) = false)) ∧
      (fs.pathExists (architecture_md_path root) = true →
        fs.pathExists (support_cases_csv_path root) = true →
        script_main fs root today now =
          .ok (output_xlsx_path root)
            (build_workbook (fs.readText (architecture_md_path root))
              (fs.readCases (support_cases_csv_path root))
              (output_xlsx_path root) today now).1) := by
  cases hA : fs.pathExists (architecture_md_path root) <;>
    cases hS : fs.pathExists (support_cases_csv_path root) <;>
      simp [script_main, hA, hS, build_workbook]

/-- C4 witnessed at two concrete filesystems: with both inputs present
`main` builds and saves the workbook; with the architecture document absent
it raises `FileNotFoundError`. -/
theorem main_two_existence_checks_witness :
    script_main ⟨fun _ => true, fun _ => "# doc", fun _ => []⟩ ["R"]
        ⟨2026, 10, 12⟩ 5 =
      .ok (output_xlsx_path ["R"])
        (build_workbook "# doc" [] (output_xlsx_path ["R"]) ⟨2026, 10, 12⟩ 5).1 ∧
      (∃ msg, script_main ⟨fun _ => false, fun _ => "# doc", fun _ => []⟩ ["R"]
        ⟨2026, 10, 12⟩ 5 = .fileNotFound msg) :=
  ⟨(main_two_existence_checks ⟨fun _ => true, fun _ => "# doc", fun _ => []⟩ ["R"]
      ⟨2026, 10, 12⟩ 5).2 rfl rfl,
    (main_two_existence_checks ⟨fun _ => false, fun _ => "# doc", fun _ => []⟩ ["R"]
      ⟨2026, 10, 12⟩ 5).1.mpr (Or.inl rfl)⟩

/-- The values on row `r` of a raw cell list (column order for
append-built sheets). -/
def listRowVals (cells : List (Nat × Nat × CellVal)) (r : Nat) : List CellVal :=
  (cells.filter (fun x => x.1 == r)).map (fun x => x.2.2)

theorem sheetRow_eq_listRowVals (s : Sheet) (r : Nat) :
    sheetRow s r = listRowVals s.cells r := rfl

theorem listRowVals_append (a b : List (Nat × Nat × CellVal)) (r : Nat) :
    listRowVals (a ++ b) r = listRowVals a r ++ listRowVals b r := by
  simp [listRowVals, List.filter_append]

theorem mem_rowCells_fst {k : Nat} {row : List CellVal}
    {c : Nat × Nat × CellVal} (h : c ∈ rowCells k row) : c.1 = k := by
  simp only [rowCells, List.mem_map] at h
  obtain ⟨p, _, rfl⟩ := h
  rfl

theorem mem_appendRows_le {rows : List (List CellVal)} :
    ∀ {k : Nat} {c : Nat × Nat × CellVal}, c ∈ appendRows k rows → k ≤ c.1 := by
  induction rows with
  | nil =>
    intro k c h
    simp [appendRows] at h
  | cons row rest ih =>
    intro k c h
    simp only [appendRows, List.mem_append] at h
    rcases h with h | h
    · exact (mem_rowCells_fst h).ge
    · exact Nat.le_of_succ_le (ih h)

theorem listRowVals_rowCells_self (k : Nat) (row : List CellVal) :
    listRowVals (rowCells k row) k = row := by
  simp only [listRowVals, rowCells, List.filter_map, List.map_map]
  have hp : ((fun x : Nat × Nat × CellVal => x.1 == k) ∘
      (fun p : Nat × CellVal => (k, p.1 + 1, p.2))) = fun _ => true := by
    funext p
    simp
  rw [hp, List.filter_true]
  have hm : ((fun x : Nat × Nat × CellVal => x.2.2) ∘
      (fun p : Nat × CellVal => (k, p.1 + 1, p.2))) = Prod.snd := by
    funext p
    rfl
  rw [hm, List.enum_map_snd]

theorem listRowVals_rowCells_ne (k r : Nat) (row : List CellVal) (h : r ≠ k) :
    listRowVals (rowCells k row) r = [] := by
  simp only [listRowVals, List.map_eq_nil_iff, List.filter_eq_nil_iff]
  intro c hc
  have := mem_rowCells_fst hc
  simp [this, Ne.symm h]

theorem listRowVals_appendRows_lt (k r : Nat) (rows : List (List CellVal))
    (h : r < k) : listRowVals (appendRows k rows) r = [] := by
  simp only [listRowVals, List.map_eq_nil_iff, List.filter_eq_nil_iff]
  intro c hc
  have := mem_appendRows_le hc
  have : ¬ c.1 = r := by omega
  simpa using this

theorem listRowVals_appendRows (rows : List (List CellVal)) :
    ∀ (k i : Nat) (hi : i < rows.length),
      listRowVals (appendRows k rows) (k + i) = rows[i] := by
  induction rows with
  | nil =>
    intro k i hi
    simp at hi
  | cons row rest ih =>
    intro k i hi
    cases i with
    | zero =>
      show listRowVals (rowCells k row ++ appendRows (k + 1) rest) (k + 0) = row
      rw [listRowVals_append]
      rw [Nat.add_zero, listRowVals_rowCells_self,
        listRowVals_appendRows_lt (k + 1) k rest (Nat.lt_succ_self k)]
      simp
    | succ j =>
      have hj : j < rest.length := by simpa using hi
      show listRowVals (rowCells k row ++ appendRows (k + 1) rest) (k + (j + 1)) = rest[j]
      rw [listRowVals_append]
      rw [listRowVals_rowCells_ne k (k + (j + 1)) row (by omega)]
      have hk : k + (j + 1) = (k + 1) + j := by omega
      rw [hk, ih (k + 1) j (by simpa using hi)]
      simp

theorem recGet_keys_map {r : Record} (hnodup : (recKeys r).Nodup) :
    (recKeys r).map (fun k => recGet r k "") = r.map Prod.snd := by
  induction r with
  | nil => rfl
  | cons p r ih =>
    obtain ⟨k, v⟩ := p
    have hk : k ∉ recKeys r := by
      have := (List.nodup_cons.mp hnodup).1
      simpa [recKeys] using this
    have hnd : (recKeys r).Nodup := (List.nodup_cons.mp hnodup).2
    show recGet ((k, v) :: r) k "" ::
        (recKeys r).map (fun q => recGet ((k, v) :: r) q "") = v :: r.map Prod.snd
    have h1 : recGet ((k, v) :: r) k "" = v := by
      simp [recGet]
    have h2 : (recKeys r).map (fun q => recGet ((k, v) :: r) q "") =
        (recKeys r).map (fun q => recGet r q "") := by
      apply List.map_congr_left
      intro q hq
      have hne : ¬ k = q := fun h => hk (h ▸ hq)
      simp [recGet, hne]
    rw [h1, h2, ih hnd]

/-- C2: CSV rows are pass-through.  For a non-empty record list (as
`csv.DictReader` produces: every record has the same keys in the same order,
and keys are unique within a record), the SupportCases sheet's row 1 is the
first record's field names, and data row i + 2 is exactly the values of
record i, in that header order and in the original record order. -/
theorem support_cases_pass_through (md : String) (out : FPath) (d : Date)
    (now : Nat) (records : List Record) (first : Record) (rest : List Record)
    (hrec : records = first :: rest)
    (hkeys : ∀ r ∈ records, recKeys r = recKeys first)
    (hnodup : (recKeys first).Nodup) :
    ∃ s, sheetByName (build_workbook md records out d now).1 "SupportCases" = some s ∧
      sheetRow s 1 = (recKeys first).map CellVal.str ∧
      ∀ (i : Nat) (hi : i < records.length),
        sheetRow s (i + 2) = records[i].map (fun p => CellVal.str p.2) := by
  subst hrec
  refine ⟨supportCasesSheet (first :: rest), rfl, ?_, ?_⟩
  · have h := listRowVals_appendRows
      ((recKeys first).map CellVal.str ::
        (first :: rest).map
          (fun item => (recKeys first).map (fun h => CellVal.str (recGet item h ""))))
      1 0 (by simp)
    simpa [sheetRow_eq_listRowVals, supportCasesSheet] using h
  · intro i hi
    have h := listRowVals_appendRows
      ((recKeys first).map CellVal.str ::
        (first :: rest).map
          (fun item => (recKeys first).map (fun h => CellVal.str (recGet item h ""))))
      1 (i + 1) (by simpa using hi)
    have hrow : sheetRow (supportCasesSheet (first :: rest)) (i + 2) =
        (recKeys first).map (fun h => CellVal.str (recGet ((first :: rest)[i]) h "")) := by
      have h2 : (1 : Nat) + (i + 1) = i + 2 := by omega
      rw [sheetRow_eq_listRowVals]
      rw [show (supportCasesSheet (first :: rest)).cells = appendRows 1
        ((recKeys first).map CellVal.str ::
          (first :: rest).map
            (fun item => (recKeys first).map (fun h => CellVal.str (recGet item h "")))) from rfl]
      rw [← h2, h]
      cases i with
      | zero => simp
      | succ j =>
        have hj : j < rest.length := by simpa using hi
        simp [List.getElem_map]
    rw [hrow]
    have hmem : (first :: rest)[i] ∈ first :: rest := List.getElem_mem hi
    have hk : recKeys ((first :: rest)[i]) = recKeys first := hkeys _ hmem
    have hmain : (recKeys ((first :: rest)[i])).map
        (fun q => recGet ((first :: rest)[i]) q "") =
        ((first :: rest)[i]).map Prod.snd :=
      recGet_keys_map (hk ▸ hnodup)
    calc (recKeys first).map (fun q => CellVal.str (recGet ((first :: rest)[i]) q ""))
        = ((recKeys ((first :: rest)[i])).map
            (fun q => recGet ((first :: rest)[i]) q "")).map CellVal.str := by
          rw [hk, List.map_map]
          rfl
      _ = (((first :: rest)[i]).map Prod.snd).map CellVal.str := by rw [hmain]
      _ = ((first :: rest)[i]).map (fun p => CellVal.str p.2) := by
          rw [List.map_map]
          rfl

/-- C2 witnessed on a concrete two-record CSV: the header row and both data
rows of the SupportCases sheet equal the records verbatim. -/
theorem support_cases_pass_through_witness :
    ∃ s, sheetByName (build_workbook "# doc"
        [[("ticket", "1"), ("title", "a")], [("ticket", "2"), ("title", "b")]]
        ["o.xlsx"] ⟨2026, 10, 12⟩ 0).1 "SupportCases" = some s ∧
      sheetRow s 1 = [CellVal.str "ticket", CellVal.str "title"] ∧
      sheetRow s 2 = [CellVal.str "1", CellVal.str "a"] ∧
      sheetRow s 3 = [CellVal.str "2", CellVal.str "b"] := by
  obtain ⟨s, h1, h2, h3⟩ :=
    support_cases_pass_through "# doc" ["o.xlsx"] ⟨2026, 10, 12⟩ 0
      [[("ticket", "1"), ("title", "a")], [("ticket", "2"), ("title", "b")]]
      [("ticket", "1"), ("title", "a")] [[("ticket", "2"), ("title", "b")]]
      rfl (by decide) (by decide)
  refine ⟨s, h1, ?_, ?_, ?_⟩
  · rw [h2]
    decide
  · rw [h3 0 (by decide)]
    decide
  · rw [h3 1 (by decide)]
    decide

/-- Read a decimal digit string as an integer (the formulas in the code are
the nonnegative integer literals "60", "79", "80"). -/
def parseIntD (s : String) : Int :=
  Int.ofNat (s.data.foldl (fun n c => n * 10 + (c.toNat - Char.toNat (Char.ofNat 48))) 0)

/-- Whether an integer cell value triggers a `CellIsRule` conditional
format: the semantics of the `lessThan`, `between` (inclusive) and
`greaterThanOrEqual` operators of openpyxl. -/
def cfMatches (r : CFRule) (x : Int) : Bool :=
  match r.operator, r.formula with
  | "lessThan", [a] => decide (x < parseIntD a)
  | "between", [a, b] => decide (parseIntD a ≤ x ∧ x ≤ parseIntD b)
  | "greaterThanOrEqual", [a] => decide (parseIntD a ≤ x)
  | _, _ => false

/-- C6: The Scores sheet always holds exactly the five literal pillars plus
an Overall row with literal integer scores, and its conditional formatting
is exactly the three bands below 60, 60 to 79, and 80 and above — which
partition the integers: every integer score triggers exactly one band. -/
theorem scores_pillars_and_bands (md : String) (records : List Record)
    (out : FPath) (d : Date) (now : Nat) (x : Int) :
    ∃ s, sheetByName (build_workbook md records out d now).1 "Scores" = some s ∧
      sheetRow s 2 = [.str "Reliability", .int 68, .str "Fair"] ∧
      sheetRow s 3 = [.str "Security", .int 74, .str "Good"] ∧
      sheetRow s 4 = [.str "Cost Optimization", .int 64, .str "Fair"] ∧
      sheetRow s 5 = [.str "Operational Excellence", .int 66, .str "Fair"] ∧
      sheetRow s 6 = [.str "Performance Efficiency", .int 78, .str "Good"] ∧
      sheetRow s 7 = [.str "Overall", .int 70, .str "Good baseline, needs hardening"] ∧
      sheetRow s 8 = [] ∧
      s.condFormats.map (fun r => (r.operator, r.formula)) =
        [("lessThan", ["60"]), ("between", ["60", "79"]),
          ("greaterThanOrEqual", ["80"])] ∧
      (s.condFormats.filter (fun r => cfMatches r x)).length = 1 := by
  refine ⟨scoresSheet, rfl, rfl, rfl, rfl, rfl, rfl, rfl, rfl, rfl, ?_⟩
  have h60 : parseIntD "60" = 60 := by decide
  have h79 : parseIntD "79" = 79 := by decide
  have h80 : parseIntD "80" = 80 := by decide
  show (List.filter (fun r => cfMatches r x) scoresSheet.condFormats).length = 1
  simp only [scoresSheet, cfMatches, List.filter_cons, List.filter_nil, h60, h79, h80,
    decide_eq_true_eq]
  split_ifs <;> simp_all <;> omega

/-- Fold a maximum of a cell attribute over a cell list (0 when empty). -/
def foldMax (f : Nat × Nat × CellVal → Nat) (cells : List (Nat × Nat × CellVal)) : Nat :=
  cells.foldr (fun c m => max (f c) m) 0

/-- The largest row index holding a written cell (0 when none). -/
def maxRowOf : List (Nat × Nat × CellVal) → Nat := foldMax (fun c => c.1)

/-- The largest column index holding a written cell (0 when none). -/
def maxColOf : List (Nat × Nat × CellVal) → Nat := foldMax (fun c => c.2.1)

theorem foldMax_append (f : Nat × Nat × CellVal → Nat)
    (a b : List (Nat × Nat × CellVal)) :
    foldMax f (a ++ b) = max (foldMax f a) (foldMax f b) := by
  induction a with
  | nil => simp [foldMax]
  | cons x xs ih =>
    show max (f x) (foldMax f (xs ++ b)) = max (max (f x) (foldMax f xs)) (foldMax f b)
    rw [ih, Nat.max_assoc]

theorem maxRowOf_map_const {α : Type} (k : Nat) (g : α → Nat × Nat × CellVal)
    (hg : ∀ a, (g a).1 = k) (l : List α) :
    maxRowOf (l.map g) = if l.isEmpty then 0 else k := by
  induction l with
  | nil => rfl
  | cons x xs ih =>
    show max (g x).1 (maxRowOf (xs.map g)) = _
    rw [hg x, ih]
    rcases xs with _ | ⟨y, ys⟩
    · simp
    · simp

theorem maxRowOf_rowCells (k : Nat) (row : List CellVal) (h : ¬ row = []) :
    maxRowOf (rowCells k row) = k := by
  show maxRowOf (row.enum.map (fun p => (k, p.1 + 1, p.2))) = k
  rw [maxRowOf_map_const k _ (fun a => rfl)]
  rcases row with _ | ⟨x, xs⟩
  · exact absurd rfl h
  · simp [List.enum_cons]

theorem maxColOf_enumFrom (k : Nat) (row : List CellVal) : ∀ j : Nat,
    maxColOf ((List.enumFrom j row).map (fun p => (k, p.1 + 1, p.2))) =
      if row.isEmpty then 0 else j + row.length := by
  induction row with
  | nil => intro j; rfl
  | cons x xs ih =>
    intro j
    show max (j + 1)
      (maxColOf ((List.enumFrom (j + 1) xs).map (fun p => (k, p.1 + 1, p.2)))) = _
    rw [ih (j + 1)]
    rcases xs with _ | ⟨y, ys⟩
    · simp
    · simp only [List.isEmpty_cons, List.length_cons, if_neg Bool.false_ne_true]
      rw [Nat.max_eq_right (by omega)]
      omega

theorem maxColOf_rowCells (k : Nat) (row : List CellVal) :
    maxColOf (rowCells k row) = row.length := by
  have h := maxColOf_enumFrom k row 0
  rcases row with _ | ⟨x, xs⟩
  · rfl
  · show maxColOf (((x :: xs).enumFrom 0).map (fun p => (k, p.1 + 1, p.2))) = _
    rw [h]
    simp

theorem maxRowOf_appendRows (rows : List (List CellVal)) :
    ∀ k : Nat, ¬ rows = [] → (∀ row ∈ rows, ¬ row = []) →
      maxRowOf (appendRows k rows) = k + rows.length - 1 := by
  induction rows with
  | nil => intro k h _; exact absurd rfl h
  | cons row rest ih =>
    intro k _ hall
    show maxRowOf (rowCells k row ++ appendRows (k + 1) rest) = _
    rw [show maxRowOf (rowCells k row ++ appendRows (k + 1) rest) =
      max (maxRowOf (rowCells k row)) (maxRowOf (appendRows (k + 1) rest)) from
      foldMax_append _ _ _]
    rw [maxRowOf_rowCells k row (hall row (by simp))]
    rcases rest with _ | ⟨r2, rs⟩
    · show max k (maxRowOf []) = k + 1 - 1
      simp [maxRowOf, foldMax]
    · rw [ih (k + 1) (by simp) (fun r hr => hall r (List.mem_cons_of_mem _ hr))]
      rw [Nat.max_eq_right (by simp; omega)]
      simp
      omega

theorem maxColOf_appendRows (w : Nat) (rows : List (List CellVal)) :
    ∀ k : Nat, ¬ rows = [] → (∀ row ∈ rows, row.length = w) →
      maxColOf (appendRows k rows) = w := by
  induction rows with
  | nil => intro k h _; exact absurd rfl h
  | cons row rest ih =>
    intro k _ hall
    show maxColOf (rowCells k row ++ appendRows (k + 1) rest) = w
    rw [show maxColOf (rowCells k row ++ appendRows (k + 1) rest) =
      max (maxColOf (rowCells k row)) (maxColOf (appendRows (k + 1) rest)) from
      foldMax_append _ _ _]
    rw [maxColOf_rowCells, hall row (by simp)]
    rcases rest with _ | ⟨r2, rs⟩
    · show max w (maxColOf []) = w
      simp [maxColOf, foldMax]
    · rw [ih (k + 1) (by simp) (fun r hr => hall r (List.mem_cons_of_mem _ hr))]
      exact Nat.max_self w

set_option maxRecDepth 4000 in
/-- C10: On every sheet carrying a structured table, the table's region runs
from the header cell (row 1, column 1) to the last written row and last
written column of the sheet; in particular ScoresTable ends at row
1 + len(scores), RecommendationsTable at 1 + len(recommendations),
RoadmapTable at 1 + len(roadmap) and SupportCasesTable at
1 + len(support_cases).  (A non-empty record list from `csv.DictReader`
always has a non-empty header, the hypothesis `hk`.) -/
theorem tables_cover_written_region (md : String) (records : List Record)
    (out : FPath) (d : Date) (now : Nat)
    (hk : ∀ first rest, records = first :: rest → ¬ recKeys first = []) :
    ∀ s ∈ (build_workbook md records out d now).1.sheets, ∀ t ∈ s.tables,
      t.startRow = 1 ∧ t.startCol = 1 ∧
      t.endRow = maxRowOf s.cells ∧ t.endCol = maxColOf s.cells ∧
      (t.displayName = "ScoresTable" → t.endRow = 1 + scores.length) ∧
      (t.displayName = "RecommendationsTable" →
        t.endRow = 1 + recommendations.length) ∧
      (t.displayName = "RoadmapTable" → t.endRow = 1 + roadmap.length) ∧
      (t.displayName = "SupportCasesTable" → t.endRow = 1 + records.length) := by
  intro s hs t ht
  have hsheets : (build_workbook md records out d now).1.sheets =
    [overviewSheet md d, scoresSheet, recommendationsSheet, roadmapSheet,
      supportCasesSheet records] := rfl
  rw [hsheets] at hs
  simp only [List.mem_cons, List.not_mem_nil, or_false] at hs
  rcases hs with rfl | rfl | rfl | rfl | rfl
  · simp [overviewSheet] at ht
  · have ht' : t = _apply_table "ScoresTable" 1 1 (1 + scores.length) 3 := by
      simpa [scoresSheet] using ht
    subst ht'
    refine ⟨rfl, rfl, by decide, by decide, fun _ => rfl, ?_, ?_, ?_⟩ <;>
      exact fun h => absurd h (by decide)
  · have ht' : t = _apply_table "RecommendationsTable" 1 1
        (1 + recommendations.length) rec_headers.length := by
      simpa [recommendationsSheet] using ht
    subst ht'
    refine ⟨rfl, rfl, by decide, by decide, ?_, fun _ => rfl, ?_, ?_⟩ <;>
      exact fun h => absurd h (by decide)
  · have ht' : t = _apply_table "RoadmapTable" 1 1 (1 + roadmap.length) 3 := by
      simpa [roadmapSheet] using ht
    subst ht'
    refine ⟨rfl, rfl, by decide, by decide, ?_, ?_, fun _ => rfl, ?_⟩ <;>
      exact fun h => absurd h (by decide)
  · rcases hrec : records with _ | ⟨first, rest⟩
    · subst hrec
      simp [supportCasesSheet] at ht
    · have hhd : ¬ recKeys first = [] := hk first rest hrec
      subst hrec
      have ht' : t = _apply_table "SupportCasesTable" 1 1
          (1 + (first :: rest).length) (recKeys first).length := by
        simpa [supportCasesSheet] using ht
      subst ht'
      have hcells : (supportCasesSheet (first :: rest)).cells = appendRows 1
          ((recKeys first).map CellVal.str ::
            (first :: rest).map (fun item =>
              (recKeys first).map (fun h => CellVal.str (recGet item h "")))) := rfl
      have hrows : maxRowOf (supportCasesSheet (first :: rest)).cells =
          1 + (first :: rest).length := by
        rw [hcells]
        rw [maxRowOf_appendRows _ 1 (by simp) ?_]
        · simp
          omega
        · intro row hrow
          simp only [List.mem_cons, List.mem_map] at hrow
          rcases hrow with rfl | ⟨item, _, rfl⟩ <;>
            simpa using hhd
      have hcols : maxColOf (supportCasesSheet (first :: rest)).cells =
          (recKeys first).length := by
        rw [hcells]
        rw [maxColOf_appendRows (recKeys first).length _ 1 (by simp) ?_]
        intro row hrow
        simp only [List.mem_cons, List.mem_map] at hrow
        rcases hrow with rfl | ⟨item, _, rfl⟩ <;> simp
      refine ⟨rfl, rfl, hrows.symm, hcols.symm, ?_, ?_, ?_, fun _ => rfl⟩ <;>
        exact fun h => by simp [_apply_table] at h

/-- C10 witnessed: on a run with a concrete one-record CSV, the ScoresTable
starts at the header cell and ends exactly at the last written row (row 7,
i.e. 1 + len(scores)) and column (3) of the Scores sheet. -/
theorem tables_cover_written_region_witness :
    (_apply_table "ScoresTable" 1 1 (1 + scores.length) 3).startRow = 1 ∧
      (_apply_table "ScoresTable" 1 1 (1 + scores.length) 3).startCol = 1 ∧
      (_apply_table "ScoresTable" 1 1 (1 + scores.length) 3).endRow =
        maxRowOf scoresSheet.cells ∧
      (_apply_table "ScoresTable" 1 1 (1 + scores.length) 3).endCol =
        maxColOf scoresSheet.cells ∧
      (_apply_table "ScoresTable" 1 1 (1 + scores.length) 3).endRow =
        1 + scores.length := by
  have h := tables_cover_written_region "# doc" [[("ticket", "1")]] ["o.xlsx"]
    ⟨2026, 10, 12⟩ 0
    (by
      intro first rest h
      cases h
      decide)
    scoresSheet (by simp [build_workbook])
    (_apply_table "ScoresTable" 1 1 (1 + scores.length) 3)
    (by simp [scoresSheet])
  exact ⟨h.1, h.2.1, h.2.2.1, h.2.2.2.1, h.2.2.2.2.1 rfl⟩
